import Mathlib

/-!
Shallow embedding of the payment-lifecycle core of the agent-economy demo:
the in-memory store with its payment state machine (`src/lib/store.ts`),
the buyer agent with its idempotent message handler (`src/lib/buyer-agent.ts`),
the seller agent (`src/lib/seller-agent.ts`) and the seller half of the
manager's poll-tick dispatch (`src/lib/agent-manager.ts`).

Modelling conventions:
* JS `Map`s become association lists keyed by `String` (`getAssoc`/`setAssoc`).
* `Date` values become `Nat` millisecond timestamps; within one operation all
  `new Date()` calls are determinized to a single `now` supplied by the caller.
* `crypto.randomUUID()` is determinized to a counter (`World.nextId`).
* Thrown JS errors become `Except` results.  A method that throws after
  partially mutating state returns the mutated state alongside the error,
  mirroring mutation-then-throw order in the source.
* The external ZendFi SDK is an opaque environment (`Env`); `World.payAttempts`
  counts how many times `zendfi.sessionKeys.makePayment` has been invoked.
-/

/-- The `PaymentStatus` enum of `src/lib/types.ts`. -/
inductive PaymentStatus where
  | initiated
  | quote_received
  | payment_sent
  | delivery_pending
  | completed
  | disputed
  | refunded
deriving DecidableEq, Repr

/-- String value of each enum member, as declared in `types.ts`. -/
def statusToString : PaymentStatus → String
  | .initiated => "initiated"
  | .quote_received => "quote_received"
  | .payment_sent => "payment_sent"
  | .delivery_pending => "delivery_pending"
  | .completed => "completed"
  | .disputed => "disputed"
  | .refunded => "refunded"

/-- The `validTransitions` table of `src/lib/store.ts` (lines 15-23). -/
def validTransitions : PaymentStatus → List PaymentStatus
  | .initiated => [.quote_received]
  | .quote_received => [.payment_sent]
  | .payment_sent => [.delivery_pending, .disputed]
  | .delivery_pending => [.completed, .disputed, .refunded]
  | .completed => []
  | .disputed => [.refunded, .completed]
  | .refunded => []

/-- Free-form metadata objects (`Record<string, any>`), as string key/values. -/
def MetaD : Type := List (String × String)

instance : DecidableEq MetaD := by
  unfold MetaD
  infer_instance

instance : Repr MetaD := by
  unfold MetaD
  infer_instance

/-- `PaymentEvent` of `types.ts`.  `actor` is `Option String` because at
runtime the field is whatever the caller passed, possibly `undefined`. -/
structure PaymentEvent where
  status : PaymentStatus
  timestamp : Nat
  actor : Option String
  metadata : Option MetaD
deriving DecidableEq, Repr

/-- `PaymentState` of `types.ts`.  `amount` is `Option Nat` (a JS number that
is `undefined` when a malformed payload propagated; amounts are in cents). -/
structure PaymentState where
  payment_id : String
  status : PaymentStatus
  buyer_agent_id : String
  seller_agent_id : String
  amount : Option Nat
  service_type : String
  transaction_signature : Option String
  events : List PaymentEvent
  refundable_until : Nat
  delivery_confirmed_at : Option Nat
  created_at : Nat
  updated_at : Nat
deriving DecidableEq, Repr

/-- `AgentProfileLite` of `types.ts` (pricing in cents). -/
structure AgentProfile where
  agent_id : String
  agent_name : String
  webhook_url : String
  services : List String
  fixed_pricing : List (String × Nat)
  session_key_id : String
  session_wallet : String
  is_autonomous : Bool
  is_online : Bool
deriving DecidableEq, Repr

/-- The four message types of `AgentMessageLite`. -/
inductive MsgType where
  | service_request
  | quote
  | payment_notification
  | delivery_confirmation
deriving DecidableEq, Repr

def msgTypeToString : MsgType → String
  | .service_request => "service_request"
  | .quote => "quote"
  | .payment_notification => "payment_notification"
  | .delivery_confirmation => "delivery_confirmation"

/-- The payload variants actually constructed by the agents' `sendMessage`
call sites, plus `null` for a malformed message.  Numeric amounts in cents. -/
inductive Payload where
  | null
  | serviceRequest (service_type : String) (quantity : Nat)
  | quote (price : Nat) (quantity : Nat) (delivery_time_minutes : Nat)
  | paymentNotification (payment_id : String) (amount : Option Nat)
      (service_type : String) (quantity : Nat)
      (transaction_signature : Option String) (refundable_until : String)
  | deliveryConfirmation (payment_id : String) (tokens_delivered : Nat)
deriving DecidableEq, Repr

/-- `AgentMessageLite` of `types.ts`. -/
structure AgentMessage where
  type : MsgType
  from_agent_id : String
  to_agent_id : String
  payload : Payload
  signature : String
  timestamp : String
  message_id : String
deriving DecidableEq, Repr

/-- The three `TransactionLog` entry types. -/
inductive LogType where
  | sent
  | received
  | message
deriving DecidableEq, Repr

/-- Structured `data` payloads attached to log entries. -/
inductive LogData where
  | msg (m : AgentMessage)
  | payment (p : PaymentState)
  | profile (a : AgentProfile)
  | kv (l : List (String × String))
deriving DecidableEq, Repr

/-- `TransactionLog` of `types.ts`. -/
structure TransactionLog where
  id : String
  timestamp : Nat
  agent_id : String
  type : LogType
  message : String
  data : Option LogData
deriving DecidableEq, Repr

/-- Association-list lookup, standing in for `Map.get`. -/
def getAssoc {α : Type} : List (String × α) → String → Option α
  | [], _ => none
  | (k, v) :: t, key => if k = key then some v else getAssoc t key

/-- Association-list update/insert, standing in for `Map.set`. -/
def setAssoc {α : Type} : List (String × α) → String → α → List (String × α)
  | [], key, v => [(key, v)]
  | (k, w) :: t, key, v =>
      if k = key then (key, v) :: t else (k, w) :: setAssoc t key v

/-- The mutable fields of the `AgentStore` singleton (`store.ts`, lines 8-12). -/
structure AgentStore where
  agents : List (String × AgentProfile)
  messages : List (String × List AgentMessage)
  payments : List (String × PaymentState)
  logs : List TransactionLog
deriving DecidableEq, Repr

/-- Global mutable state plus the determinized `crypto.randomUUID` counter and
a count of external `makePayment` invocations (an environment observable). -/
structure World where
  store : AgentStore
  nextId : Nat
  payAttempts : Nat
deriving DecidableEq, Repr

/-- `store.addLog` with a fresh `crypto.randomUUID()` id. -/
def addLogW (w : World) (now : Nat) (agent_id : String) (ty : LogType)
    (msgText : String) (data : Option LogData) : World :=
  { w with
    nextId := w.nextId + 1,
    store := { w.store with
      logs := w.store.logs ++
        [{ id := "uuid-" ++ toString w.nextId, timestamp := now,
           agent_id := agent_id, type := ty, message := msgText, data := data }] } }

/-- `AgentStore.getAgent` (`store.ts`, lines 38-40). -/
def AgentStore.getAgent (s : AgentStore) (agent_id : String) : Option AgentProfile :=
  getAssoc s.agents agent_id

/-- `AgentStore.getMessages` (`store.ts`, lines 70-72). -/
def AgentStore.getMessages (s : AgentStore) (agent_id : String) : List AgentMessage :=
  (getAssoc s.messages agent_id).getD []

/-- `AgentStore.clearMessages` (`store.ts`, lines 74-76). -/
def AgentStore.clearMessages (w : World) (agent_id : String) : World :=
  { w with store := { w.store with messages := setAssoc w.store.messages agent_id [] } }

/-- `AgentStore.storeMessage` (`store.ts`, lines 55-68): append to the
recipient's queue, then log `Message sent: <type>`. -/
def AgentStore.storeMessage (w : World) (now : Nat) (m : AgentMessage) : World :=
  let q := (getAssoc w.store.messages m.to_agent_id).getD []
  let w2 := { w with store :=
    { w.store with messages := setAssoc w.store.messages m.to_agent_id (q ++ [m]) } }
  addLogW w2 now m.from_agent_id .sent ("Message sent: " ++ msgTypeToString m.type)
    (some (.msg m))

/-- `AgentStore.getPayment` (`store.ts`, lines 100-102). -/
def AgentStore.getPayment (s : AgentStore) (payment_id : String) : Option PaymentState :=
  getAssoc s.payments payment_id

/-- `AgentStore.storePayment` (`store.ts`, lines 79-98): seed one initial
event when `events` is empty, insert (last write wins), then log. -/
def AgentStore.storePayment (w : World) (now : Nat) (payment : PaymentState) : World :=
  let payment :=
    if payment.events.isEmpty then
      { payment with events :=
        [{ status := payment.status, timestamp := now,
           actor := some payment.buyer_agent_id, metadata := none }] }
    else payment
  let w2 := { w with store :=
    { w.store with payments := setAssoc w.store.payments payment.payment_id payment } }
  addLogW w2 now payment.buyer_agent_id .sent
    ("Payment " ++ statusToString payment.status ++ ": $" ++
      toString (payment.amount.getD 0))
    (some (.payment payment))

/-- The runtime value passed as the `newStatus` argument of
`updatePaymentStatus`.  The buyer passes a genuine `PaymentStatus`; the seller
(stale call, old store API) passes a plain updates object. -/
inductive StatusArg where
  | status (s : PaymentStatus)
  | updatesObject (updates : List (String × String))
deriving DecidableEq, Repr

/-- How JS renders the argument inside the error template string. -/
def statusArgToString : StatusArg → String
  | .status s => statusToString s
  | .updatesObject _ => "[object Object]"

/-- Errors thrown by `AgentStore` methods (`store.ts`, lines 116 and 121-124).
`invalidTransition` carries the payment's current status, the offending
argument, and the full allowed set `validTransitions[current]` — exactly the
data interpolated into the thrown `Error`'s message. -/
inductive StoreError where
  | notFound (payment_id : String)
  | invalidTransition (current : PaymentStatus) (attempted : StatusArg)
      (allowed : List PaymentStatus)
deriving DecidableEq, Repr

/-- The `Error.message` strings built in `store.ts`. -/
def StoreError.message : StoreError → String
  | .notFound pid => "Payment " ++ pid ++ " not found"
  | .invalidTransition cur arg allowed =>
      "Invalid state transition: " ++ statusToString cur ++ " → " ++
      statusArgToString arg ++ ". Valid transitions from " ++
      statusToString cur ++ ": " ++
      String.intercalate ", " (allowed.map statusToString)

/-- `AgentStore.updatePaymentStatus` (`store.ts`, lines 108-149).
Order as in the source: lookup (throw `notFound`), `isValidTransition` check
(throw `invalidTransition` carrying the current status and allowed set),
then mutate `status`/`updated_at`, push one event, re-insert, and log.
On a throw the returned `World` is the untouched input.  A non-status
`newStatus` argument (the seller's stale updates-object call) never passes the
`Array.includes` check, since `includes` compares against enum string values. -/
def AgentStore.updatePaymentStatus (w : World) (now : Nat) (payment_id : String)
    (arg : StatusArg) (actor : Option String) (metadata : Option MetaD) :
    Except StoreError Unit × World :=
  match getAssoc w.store.payments payment_id with
  | none => (.error (.notFound payment_id), w)
  | some payment =>
    match arg with
    | .status newStatus =>
      if (validTransitions payment.status).contains newStatus then
        let payment2 := { payment with
          status := newStatus,
          updated_at := now,
          events := payment.events ++
            [{ status := newStatus, timestamp := now, actor := actor,
               metadata := metadata }] }
        let w2 := { w with store :=
          { w.store with payments := setAssoc w.store.payments payment_id payment2 } }
        let w3 := addLogW w2 now (actor.getD "undefined") .message
          ("Payment " ++ payment_id ++ " → " ++ statusToString newStatus)
          (some (.kv [("payment_id", payment_id),
                      ("newStatus", statusToString newStatus)]))
        (.ok (), w3)
      else
        (.error (.invalidTransition payment.status arg
          (validTransitions payment.status)), w)
    | .updatesObject _ =>
        (.error (.invalidTransition payment.status arg
          (validTransitions payment.status)), w)

/-- `AgentStore.canRefundPayment` (`store.ts`, lines 170-179).  A pure query:
it takes the store and the current time and returns a `Bool`, mutating
nothing by construction. -/
def AgentStore.canRefundPayment (s : AgentStore) (now : Nat) (payment_id : String) : Bool :=
  match getAssoc s.payments payment_id with
  | none => false
  | some payment =>
      payment.status == PaymentStatus.delivery_pending &&
      decide (now < payment.refundable_until)

/-- Last element's status of an event list (the source reads
`events[events.length - 1].status`). -/
def lastStatus : List PaymentEvent → Option PaymentStatus
  | [] => none
  | [e] => some e.status
  | _ :: t => lastStatus t

/-- A payment record satisfies the spec invariant: `events` non-empty and
`status` equal to the status of the last event. -/
def paymentConsistent (p : PaymentState) : Bool :=
  match lastStatus p.events with
  | none => false
  | some s => s == p.status

/-- The store-wide invariant: every stored payment is consistent. -/
def storeConsistent (s : AgentStore) : Bool :=
  s.payments.all fun pr => paymentConsistent pr.2

/-- A thrown JS error surfacing from agent code. -/
inductive JsErr where
  | thrown (m : String)
  | store (e : StoreError)
  | typeError (m : String)
deriving DecidableEq, Repr

/-- `error.message` as read by the buyer's catch block. -/
def JsErr.message : JsErr → String
  | .thrown m => m
  | .store e => e.message
  | .typeError m => m

/-- Result of `zendfi.sessionKeys.makePayment`. -/
structure PayResult where
  paymentId : String
  signature : String
deriving DecidableEq, Repr

/-- Result of `zendfi.sessionKeys.getStatus`. -/
structure SessionStatus where
  remainingUsdc : Nat
deriving DecidableEq, Repr

/-- The opaque external world: the ZendFi SDK calls and the clock.
`makePayment` takes sessionKeyId, amount (cents; `none` models a JS
`undefined` amount), recipient and description; a `.error` result models a
rejected SDK promise. -/
structure Env where
  makePayment : String → Option Nat → String → String → Except String PayResult
  getStatus : String → Except String SessionStatus
  now : Nat

/-- Instance state of `BuyerAgent` (`buyer-agent.ts`, lines 10-19).
`processedMessages` is the idempotency set, held as a list used as a set. -/
structure BuyerState where
  agentId : String
  agentName : String
  webhookUrl : String
  sessionKeyId : String
  sessionWallet : String
  isAutonomous : Bool
  processedMessages : List String
deriving DecidableEq, Repr

/-- `sendMessage` shared by both agents: fill in a fresh `message_id`, the
timestamp and the mock signature, then `agentStore.storeMessage`. -/
def sendMessageFrom (w : World) (now : Nat) (fromId toId : String)
    (ty : MsgType) (payload : Payload) : World :=
  let mid := "uuid-" ++ toString w.nextId
  let w2 := { w with nextId := w.nextId + 1 }
  AgentStore.storeMessage w2 now
    { type := ty, from_agent_id := fromId, to_agent_id := toId,
      payload := payload, signature := "mock_signature",
      timestamp := toString now, message_id := mid }

/-- Field access `payload.price` / `payload.quantity` on a quote payload. -/
def Payload.price? : Payload → Option Nat
  | .quote price _ _ => some price
  | _ => none

def Payload.quantity? : Payload → Option Nat
  | .quote _ q _ => some q
  | .serviceRequest _ q => some q
  | .paymentNotification _ _ _ q _ _ => some q
  | _ => none

/-- Render of a possibly-`undefined` JS number inside a template string. -/
def optNatToString : Option Nat → String
  | some n => toString n
  | none => "undefined"

/-- `BuyerAgent.handleQuote` (`buyer-agent.ts`, lines 157-273).
Mirrors the source's order: log the quote (this property access throws a
`TypeError` when the payload is `null`, before the `try` block); inside the
`try`: log, look up the seller (a missing seller throws and is caught by the
same `catch`), call `makePayment` (counted in `payAttempts`); on success
compute `refundable_until = now + 24h`, store the payment (first event
pre-populated with status `payment_sent`), transition to `delivery_pending`,
log, and notify the seller.  The `catch` block only logs the failure —
no payment record, no retry, and no rethrow.  Payload shapes other than
`quote`/`null` are never produced for a quote-typed message by this system;
they follow the same flow with `undefined` numeric fields. -/
def BuyerAgent.handleQuote (env : Env) (bs : BuyerState) (msg : AgentMessage)
    (w : World) : Except JsErr Unit × World :=
  match msg.payload with
  | .null =>
      (.error (.typeError "Cannot read properties of null (reading price)"), w)
  | _ =>
    let price? := msg.payload.price?
    let qty? := msg.payload.quantity?
    let w := addLogW w env.now bs.agentId .message
      ("Quote received: $" ++ optNatToString price? ++ " for " ++
        optNatToString qty? ++ " tokens") none
    let w := addLogW w env.now bs.agentId .message "Executing payment via ZendFi..." none
    match AgentStore.getAgent w.store msg.from_agent_id with
    | none =>
        (.ok (), addLogW w env.now bs.agentId .message
          (" Payment failed: Seller agent not found")
          (some (.kv [("error", "Seller agent not found")])))
    | some seller =>
      let w := { w with payAttempts := w.payAttempts + 1 }
      match env.makePayment bs.sessionKeyId price? seller.session_wallet
          (optNatToString qty? ++ " GPT-4 tokens") with
      | .error emsg =>
          (.ok (), addLogW w env.now bs.agentId .message
            (" Payment failed: " ++ emsg) (some (.kv [("error", emsg)])))
      | .ok pay =>
        let refundable_until := env.now + 24 * 60 * 60 * 1000
        let w := addLogW w env.now bs.agentId .message
          "🤖 Autonomous signing via Lit Protocol..." none
        let w := AgentStore.storePayment w env.now
          { payment_id := pay.paymentId,
            status := .payment_sent,
            buyer_agent_id := bs.agentId,
            seller_agent_id := msg.from_agent_id,
            amount := price?,
            service_type := "gpt4-tokens",
            transaction_signature := some pay.signature,
            events := [{ status := .payment_sent, timestamp := env.now,
                         actor := some bs.agentId,
                         metadata := some [("quantity", optNatToString qty?)] }],
            refundable_until := refundable_until,
            delivery_confirmed_at := none,
            created_at := env.now,
            updated_at := env.now }
        match AgentStore.updatePaymentStatus w env.now pay.paymentId
            (.status .delivery_pending) (some bs.agentId)
            (some [("awaiting_delivery", "true")]) with
        | (.error e, w) =>
            -- unreachable: the record just stored is in PAYMENT_SENT, from which
            -- DELIVERY_PENDING is always allowed; caught by the same catch block
            (.ok (), addLogW w env.now bs.agentId .message
              (" Payment failed: " ++ e.message)
              (some (.kv [("error", e.message)])))
        | (.ok _, w) =>
          let w := addLogW w env.now bs.agentId .sent
            ("✅ Payment sent: $" ++ optNatToString price? ++ " (TX: " ++
              pay.signature ++ "...)")
            (some (.kv [("payment_id", pay.paymentId)]))
          let w := sendMessageFrom w env.now bs.agentId msg.from_agent_id
            .payment_notification
            (.paymentNotification pay.paymentId price? "gpt4-tokens"
              (qty?.getD 0) (some pay.signature) (toString refundable_until))
          (.ok (), w)

/-- `BuyerAgent.handleDelivery` (`buyer-agent.ts`, lines 275-284): purely
informational, one log entry. -/
def BuyerAgent.handleDelivery (env : Env) (bs : BuyerState) (msg : AgentMessage)
    (w : World) : Except JsErr Unit × World :=
  (.ok (), addLogW w env.now bs.agentId .message
    "Tokens delivered! Transaction complete." (some (.msg msg)))

/-- The `switch (message.type)` inside `BuyerAgent.handleMessage`
(`buyer-agent.ts`, lines 133-141): `quote` and `delivery_confirmation` are
dispatched; other types fall through with no effect. -/
def buyerDispatch (env : Env) (bs : BuyerState) (msg : AgentMessage)
    (w : World) : Except JsErr Unit × World :=
  match msg.type with
  | .quote => BuyerAgent.handleQuote env bs msg w
  | .delivery_confirmation => BuyerAgent.handleDelivery env bs msg w
  | _ => (.ok (), w)

/-- `BuyerAgent.handleMessage` (`buyer-agent.ts`, lines 106-155).
Idempotency gate: a known `message_id` only logs a duplicate-ignored entry
and returns.  Otherwise the id is added to the processed set first, a
`received` entry is logged, and the type-switch dispatches.  On a dispatch
exception: log the failure, remove the id from the processed set, rethrow. -/
def BuyerAgent.handleMessage (env : Env) (bs : BuyerState) (msg : AgentMessage)
    (w : World) : Except JsErr Unit × BuyerState × World :=
  if bs.processedMessages.contains msg.message_id then
    (.ok (), bs, addLogW w env.now bs.agentId .message
      ("⚠️  Ignoring duplicate message: " ++ msg.message_id)
      (some (.kv [("message_id", msg.message_id),
                  ("type", msgTypeToString msg.type)])))
  else
    let bs2 := { bs with processedMessages := msg.message_id :: bs.processedMessages }
    let w2 := addLogW w env.now bs2.agentId .received
      ("Received " ++ msgTypeToString msg.type) (some (.msg msg))
    match buyerDispatch env bs2 msg w2 with
    | (.ok u, w3) => (.ok u, bs2, w3)
    | (.error e, w3) =>
        let w4 := addLogW w3 env.now bs2.agentId .message
          ("❌ Error handling " ++ msgTypeToString msg.type ++ ": " ++ e.message)
          (some (.kv [("message_id", msg.message_id), ("error", e.message)]))
        (.error e,
         { bs2 with processedMessages := bs2.processedMessages.erase msg.message_id },
         w4)

/-- Instance state of `SellerAgent` (`seller-agent.ts`).  Note: unlike the
buyer, the seller class declares no `processedMessages` set. -/
structure SellerState where
  agentId : String
  agentName : String
  webhookUrl : String
  sessionKeyId : String
  sessionWallet : String
  isAutonomous : Bool
  fixedPricing : List (String × Nat)
deriving DecidableEq, Repr

/-- `SellerAgent.calculatePrice`: `quantity * fixedPricing['gpt4-tokens']`
(in cents; the lookup yields 0 when the key is absent, standing in for NaN). -/
def SellerAgent.calculatePrice (ss : SellerState) (quantity : Nat) : Nat :=
  quantity * ((getAssoc ss.fixedPricing "gpt4-tokens").getD 0)

/-- `SellerAgent.handleServiceRequest`: log, then reply with a `quote`
message carrying price, quantity and a fixed 5-minute ETA. -/
def SellerAgent.handleServiceRequest (env : Env) (ss : SellerState)
    (msg : AgentMessage) (w : World) : Except JsErr Unit × World :=
  match msg.payload with
  | .serviceRequest _ qty =>
      let price := SellerAgent.calculatePrice ss qty
      let w := addLogW w env.now ss.agentId .message
        ("Sending quote: $" ++ toString price ++ " for " ++ toString qty ++
          " tokens") none
      (.ok (), sendMessageFrom w env.now ss.agentId msg.from_agent_id .quote
        (.quote price qty 5))
  | _ =>
      -- never produced by this system for a service_request-typed message
      (.ok (), w)

/-- `SellerAgent.handlePayment` (`seller-agent.ts` / the concatenated
`agent-manager.ts` bundle, lines 366-439).  Best-effort balance check via
`getStatus` (failure only logged), the 24h-dispute log, the simulated
delivery delay (no state effect), then the STALE call
`updatePaymentStatus(payment.payment_id, \x7b status: 'completed',
delivery_confirmed_at \x7d)` — an updates object in the `newStatus` position
and no `actor` argument, matching the pre-state-machine store API.  If that
call throws, the error propagates and neither the delivered log nor the
`delivery_confirmation` message is produced. -/
def SellerAgent.handlePayment (env : Env) (ss : SellerState)
    (msg : AgentMessage) (w : World) : Except JsErr Unit × World :=
  match msg.payload with
  | .paymentNotification pid amount _ qty _ _ =>
    let w := match env.getStatus ss.sessionKeyId with
      | .ok status =>
          addLogW w env.now ss.agentId .received
            ("💰 Payment received: $" ++ optNatToString amount ++
              " (Balance: $" ++ toString status.remainingUsdc ++ ")")
            (some (.kv [("session_balance", toString status.remainingUsdc)]))
      | .error emsg =>
          addLogW w env.now ss.agentId .message
            ("Could not verify payment: " ++ emsg) none
    let w := addLogW w env.now ss.agentId .message
      "Buyer has 24hr to dispute if not satisfied." none
    -- deliverTokens: a fixed 2s delay, no observable state change
    match AgentStore.updatePaymentStatus w env.now pid
        (.updatesObject [("status", "completed"),
                         ("delivery_confirmed_at", toString env.now)])
        none none with
    | (.error e, w) => (.error (.store e), w)
    | (.ok _, w) =>
        let w := addLogW w env.now ss.agentId .message
          ("Delivered " ++ toString qty ++ " tokens") none
        let w := sendMessageFrom w env.now ss.agentId msg.from_agent_id
          .delivery_confirmation (.deliveryConfirmation pid qty)
        let w := addLogW w env.now ss.agentId .message "Delivery confirmed!" none
        (.ok (), w)
  | .null =>
      -- property access on a null payload throws; coarse model of a dead branch
      (.error (.typeError "Cannot read properties of null (reading amount)"), w)
  | _ =>
      -- payload shapes never produced for a payment_notification-typed message
      (.ok (), w)

/-- `SellerAgent.handleMessage` (lines 321-340 of the bundle): log `received`,
then dispatch by type.  NO idempotency gate: the seller never consults or
updates a processed-message set, and errors propagate uncaught. -/
def SellerAgent.handleMessage (env : Env) (ss : SellerState)
    (msg : AgentMessage) (w : World) : Except JsErr Unit × World :=
  let w := addLogW w env.now ss.agentId .received
    ("Received " ++ msgTypeToString msg.type) (some (.msg msg))
  match msg.type with
  | .service_request => SellerAgent.handleServiceRequest env ss msg w
  | .payment_notification => SellerAgent.handlePayment env ss msg w
  | _ => (.ok (), w)

/-- Sequential delivery of a drained queue to the seller.  The manager's
`forEach(msg => handleMessage(msg))` does not await the async handler, so a
rejected promise never stops delivery of the remaining messages of the tick;
each per-message error is therefore dropped here. -/
def deliverAllSeller (env : Env) (ss : SellerState) :
    List AgentMessage → World → World
  | [], w => w
  | m :: rest, w =>
      deliverAllSeller env ss rest (SellerAgent.handleMessage env ss m w).2

/-- The seller half of `AgentManager.processMessages` (`agent-manager.ts`):
read the seller's queue, and if non-empty dispatch every message in order,
then clear the queue. -/
def processSellerMessages (env : Env) (ss : SellerState) (w : World) : World :=
  let msgs := AgentStore.getMessages w.store ss.agentId
  if msgs.length > 0 then
    AgentStore.clearMessages (deliverAllSeller env ss msgs w) ss.agentId
  else w

/-! ## Helper lemmas about the association-list maps and event lists -/

theorem getAssoc_setAssoc_self {α : Type} (l : List (String × α)) (k : String) (v : α) :
    getAssoc (setAssoc l k v) k = some v := by
  induction l with
  | nil => simp [setAssoc, getAssoc]
  | cons hd t ih =>
      obtain ⟨k2, v2⟩ := hd
      by_cases hk : k2 = k
      · simp [setAssoc, hk, getAssoc]
      · simp [setAssoc, hk, getAssoc, ih]

theorem mem_setAssoc {α : Type} {pr : String × α} {l : List (String × α)}
    {k : String} {v : α} (h : pr ∈ setAssoc l k v) : pr = (k, v) ∨ pr ∈ l := by
  induction l with
  | nil => simpa [setAssoc] using h
  | cons hd t ih =>
      obtain ⟨k2, v2⟩ := hd
      by_cases hk : k2 = k
      · simp only [setAssoc, hk, if_pos rfl] at h
        rcases List.mem_cons.mp h with h1 | h1
        · exact Or.inl h1
        · exact Or.inr (List.mem_cons_of_mem _ h1)
      · simp only [setAssoc, if_neg hk] at h
        rcases List.mem_cons.mp h with h1 | h1
        · exact Or.inr (h1 ▸ List.mem_cons_self _ _)
        · rcases ih h1 with h2 | h2
          · exact Or.inl h2
          · exact Or.inr (List.mem_cons_of_mem _ h2)

theorem lastStatus_concat (l : List PaymentEvent) (e : PaymentEvent) :
    lastStatus (l ++ [e]) = some e.status := by
  induction l with
  | nil => rfl
  | cons x t ih =>
      cases t with
      | nil => rfl
      | cons y u => simpa [lastStatus, List.cons_append] using ih

theorem storeConsistent_set {s : AgentStore} {k : String} {v : PaymentState}
    (hs : storeConsistent s = true) (hv : paymentConsistent v = true) :
    (setAssoc s.payments k v).all (fun pr => paymentConsistent pr.2) = true := by
  rw [List.all_eq_true]
  intro pr hpr
  rcases mem_setAssoc hpr with h | h
  · rw [h]
    exact hv
  · exact List.all_eq_true.mp hs pr h

/-! ## Fixtures: concrete agents, payments, messages and worlds -/

/-- An empty world (fresh store). -/
def wEmpty : World :=
  { store := { agents := [], messages := [], payments := [], logs := [] },
    nextId := 0, payAttempts := 0 }

/-- A consistently-stored payment sitting in INITIATED. -/
def pFix : PaymentState :=
  { payment_id := "pay-1", status := .initiated,
    buyer_agent_id := "buyer-agent-demo", seller_agent_id := "seller-agent-demo",
    amount := some 5, service_type := "gpt4-tokens",
    transaction_signature := none,
    events := [{ status := .initiated, timestamp := 0,
                 actor := some "buyer-agent-demo", metadata := none }],
    refundable_until := 999, delivery_confirmed_at := none,
    created_at := 0, updated_at := 0 }

/-- A world holding just `pFix`. -/
def wFix : World :=
  { store := { agents := [], messages := [], payments := [("pay-1", pFix)], logs := [] },
    nextId := 0, payAttempts := 0 }

/-! ## Claims about the store -/

/-- C1: `updatePaymentStatus` fails with `NotFoundError` when the payment id
is unknown; when the payment exists the call succeeds iff the requested
status is in `validTransitions` of the current status; on an invalid request
the thrown error carries the payment's current status and the full allowed
set for that status (from which `StoreError.message` renders the source's
template string).  The final conjuncts pin the transition table to the fixed
table named by the claim. -/
theorem claim_C1 (w : World) (now : Nat) (pid : String) (s : PaymentStatus)
    (actor : Option String) (meta : Option MetaD) :
    (getAssoc w.store.payments pid = none →
      AgentStore.updatePaymentStatus w now pid (.status s) actor meta =
        (.error (.notFound pid), w))
    ∧ (∀ p, getAssoc w.store.payments pid = some p →
        ((∃ w2, AgentStore.updatePaymentStatus w now pid (.status s) actor meta =
            (.ok (), w2)) ↔ s ∈ validTransitions p.status)
        ∧ (s ∉ validTransitions p.status →
            AgentStore.updatePaymentStatus w now pid (.status s) actor meta =
              (.error (.invalidTransition p.status (.status s)
                (validTransitions p.status)), w)))
    ∧ validTransitions .initiated = [.quote_received]
    ∧ validTransitions .quote_received = [.payment_sent]
    ∧ validTransitions .payment_sent = [.delivery_pending, .disputed]
    ∧ validTransitions .delivery_pending = [.completed, .disputed, .refunded]
    ∧ validTransitions .disputed = [.refunded, .completed]
    ∧ validTransitions .completed = []
    ∧ validTransitions .refunded = [] := by
  refine ⟨?_, ?_, rfl, rfl, rfl, rfl, rfl, rfl, rfl⟩
  · intro h
    simp [AgentStore.updatePaymentStatus, h]
  · intro p hp
    constructor
    · by_cases hc : s ∈ validTransitions p.status
      · simp [AgentStore.updatePaymentStatus, hp, hc]
      · simp [AgentStore.updatePaymentStatus, hp, hc]
    · intro hc
      simp [AgentStore.updatePaymentStatus, hp, hc]

/-- Witness for C1 at a concrete input: transitioning `pFix` (INITIATED)
directly to COMPLETED fails with the structured invalid-transition error. -/
theorem claim_C1_witness :
    AgentStore.updatePaymentStatus wFix 7 "pay-1" (.status .completed)
      (some "seller-agent-demo") none =
      (.error (.invalidTransition .initiated (.status .completed)
        [.quote_received]), wFix) :=
  ((claim_C1 wFix 7 "pay-1" .completed (some "seller-agent-demo") none).2.1
    pFix (by decide)).2 (by decide)

/-- C3: a (current, requested) pair outside the transition table makes
`updatePaymentStatus` throw and return the input world untouched: the
payment's `status`, `updated_at` and `events` are exactly as before and no
log entry is appended (the source validates before any mutation). -/
theorem claim_C3 (w : World) (now : Nat) (pid : String) (s : PaymentStatus)
    (actor : Option String) (meta : Option MetaD) (p : PaymentState)
    (hp : getAssoc w.store.payments pid = some p)
    (hs : s ∉ validTransitions p.status) :
    AgentStore.updatePaymentStatus w now pid (.status s) actor meta =
      (.error (.invalidTransition p.status (.status s)
        (validTransitions p.status)), w) := by
  simp [AgentStore.updatePaymentStatus, hp, hs]

/-- Witness for C3: asking for REFUNDED from INITIATED leaves `wFix` intact. -/
theorem claim_C3_witness :
    AgentStore.updatePaymentStatus wFix 3 "pay-1" (.status .refunded)
      (some "buyer-agent-demo") none =
      (.error (.invalidTransition .initiated (.status .refunded)
        [.quote_received]), wFix) :=
  claim_C3 wFix 3 "pay-1" .refunded (some "buyer-agent-demo") none pFix
    (by decide) (by decide)

/-- C8: for a stored payment, `canRefundPayment` is `true` iff the status is
DELIVERY_PENDING and `now` is strictly before `refundable_until`; for the
terminal statuses COMPLETED and REFUNDED it is `false` regardless of `now`.
The query is a pure function of the store (type `AgentStore → Nat → String →
Bool`), so it mutates nothing by construction. -/
theorem claim_C8 (s : AgentStore) (now : Nat) (pid : String) (p : PaymentState)
    (hp : getAssoc s.payments pid = some p) :
    (AgentStore.canRefundPayment s now pid = true ↔
      (p.status = .delivery_pending ∧ now < p.refundable_until))
    ∧ ((p.status = .completed ∨ p.status = .refunded) →
        AgentStore.canRefundPayment s now pid = false) := by
  constructor
  · simp [AgentStore.canRefundPayment, hp, Bool.and_eq_true, beq_iff_eq,
      decide_eq_true_eq]
  · rintro (h | h) <;>
      simp [AgentStore.canRefundPayment, hp, h]

/-- A DELIVERY_PENDING variant of `pFix` with a 24h refund window. -/
def pDP : PaymentState :=
  { pFix with status := .delivery_pending, refundable_until := 86400000 }

/-- A store holding just `pDP`. -/
def sDP : AgentStore :=
  { agents := [], messages := [], payments := [("pay-1", pDP)], logs := [] }

/-- Witness for C8: a DELIVERY_PENDING payment inside its window is
refundable at time 100 (the window closes at 86400000). -/
theorem claim_C8_witness :
    AgentStore.canRefundPayment sDP 100 "pay-1" = true ∧ 100 < (86400000 : Nat) := by
  refine ⟨?_, by decide⟩
  exact (claim_C8 sDP 100 "pay-1" pDP (by decide)).1.mpr ⟨rfl, by decide⟩

/-- C10: a `payment_id` absent from the payments map makes
`canRefundPayment` return `false` rather than throwing — unlike
`updatePaymentStatus`, absence is not an error for this query. -/
theorem claim_C10 (s : AgentStore) (now : Nat) (pid : String)
    (h : getAssoc s.payments pid = none) :
    AgentStore.canRefundPayment s now pid = false := by
  simp [AgentStore.canRefundPayment, h]

/-- Witness for C10: the empty store refunds nothing. -/
theorem claim_C10_witness :
    AgentStore.canRefundPayment wEmpty.store 0 "missing-pay" = false :=
  claim_C10 wEmpty.store 0 "missing-pay" (by decide)

/-! ## The status/events invariant (claim C2) -/

theorem addLogW_payments (w : World) (now : Nat) (aid : String) (ty : LogType)
    (m : String) (d : Option LogData) :
    (addLogW w now aid ty m d).store.payments = w.store.payments := rfl

theorem storePayment_payments_nil (w : World) (now : Nat) (payment : PaymentState)
    (h : payment.events = []) :
    (AgentStore.storePayment w now payment).store.payments =
      setAssoc w.store.payments payment.payment_id
        { payment with
            events := [{ status := payment.status, timestamp := now,
                         actor := some payment.buyer_agent_id,
                         metadata := none }] } := by
  simp [AgentStore.storePayment, h, addLogW_payments]

theorem storePayment_payments_cons (w : World) (now : Nat) (payment : PaymentState)
    (e : PaymentEvent) (t : List PaymentEvent) (h : payment.events = e :: t) :
    (AgentStore.storePayment w now payment).store.payments =
      setAssoc w.store.payments payment.payment_id payment := by
  simp [AgentStore.storePayment, h, addLogW_payments]

theorem updatePaymentStatus_notFound (w : World) (now : Nat) (pid : String)
    (arg : StatusArg) (actor : Option String) (meta : Option MetaD)
    (hg : getAssoc w.store.payments pid = none) :
    AgentStore.updatePaymentStatus w now pid arg actor meta =
      (.error (.notFound pid), w) := by
  simp [AgentStore.updatePaymentStatus, hg]

theorem updatePaymentStatus_invalid (w : World) (now : Nat) (pid : String)
    (s : PaymentStatus) (actor : Option String) (meta : Option MetaD)
    (p : PaymentState) (hg : getAssoc w.store.payments pid = some p)
    (hc : s ∉ validTransitions p.status) :
    AgentStore.updatePaymentStatus w now pid (.status s) actor meta =
      (.error (.invalidTransition p.status (.status s)
        (validTransitions p.status)), w) := by
  simp [AgentStore.updatePaymentStatus, hg, hc]

theorem updatePaymentStatus_updatesObject (w : World) (now : Nat) (pid : String)
    (u : List (String × String)) (actor : Option String) (meta : Option MetaD)
    (p : PaymentState) (hg : getAssoc w.store.payments pid = some p) :
    AgentStore.updatePaymentStatus w now pid (.updatesObject u) actor meta =
      (.error (.invalidTransition p.status (.updatesObject u)
        (validTransitions p.status)), w) := by
  simp [AgentStore.updatePaymentStatus, hg]

theorem updatePaymentStatus_payments_ok (w : World) (now : Nat) (pid : String)
    (s : PaymentStatus) (actor : Option String) (meta : Option MetaD)
    (p : PaymentState) (hg : getAssoc w.store.payments pid = some p)
    (hc : s ∈ validTransitions p.status) :
    (AgentStore.updatePaymentStatus w now pid (.status s) actor
        meta).2.store.payments =
      setAssoc w.store.payments pid
        { p with
            status := s, updated_at := now,
            events := p.events ++ [{ status := s, timestamp := now,
                                     actor := actor, metadata := meta }] } := by
  simp [AgentStore.updatePaymentStatus, hg, hc, addLogW_payments]

theorem storePayment_consistent (w : World) (now : Nat) (payment : PaymentState)
    (hw : storeConsistent w.store = true)
    (hp : payment.events = [] ∨ paymentConsistent payment = true) :
    storeConsistent (AgentStore.storePayment w now payment).store = true := by
  unfold storeConsistent
  rcases hev : payment.events with _ | ⟨e, t⟩
  · rw [storePayment_payments_nil w now payment hev]
    refine storeConsistent_set hw ?_
    simp [paymentConsistent, lastStatus]
  · rw [storePayment_payments_cons w now payment e t hev]
    refine storeConsistent_set hw ?_
    rcases hp with hp | hp
    · rw [hp] at hev
      cases hev
    · exact hp

theorem updatePaymentStatus_consistent (w : World) (now : Nat) (pid : String)
    (arg : StatusArg) (actor : Option String) (meta : Option MetaD)
    (hw : storeConsistent w.store = true) :
    storeConsistent
      (AgentStore.updatePaymentStatus w now pid arg actor meta).2.store = true := by
  cases hg : getAssoc w.store.payments pid with
  | none =>
      rw [updatePaymentStatus_notFound w now pid arg actor meta hg]
      exact hw
  | some payment =>
    cases arg with
    | updatesObject u =>
        rw [updatePaymentStatus_updatesObject w now pid u actor meta payment hg]
        exact hw
    | status newStatus =>
      by_cases hc : newStatus ∈ validTransitions payment.status
      · unfold storeConsistent
        rw [updatePaymentStatus_payments_ok w now pid newStatus actor meta
          payment hg hc]
        refine storeConsistent_set hw ?_
        simp [paymentConsistent, lastStatus_concat]
      · rw [updatePaymentStatus_invalid w now pid newStatus actor meta payment hg hc]
        exact hw

/-- C2 (amended): the invariant `events nonempty ∧ status = status of the
last event` is preserved by every store operation, provided each payment
passed to `storePayment` either has empty `events` (the store then seeds the
initial event) or already satisfies the invariant.  In particular:
`storePayment` seeds exactly one event carrying the payment's status with
`actor = buyer_agent_id` when `events` is empty; a successful
`updatePaymentStatus` sets `status = new_status` and appends exactly one
event with that status; and the message/log operations never touch
payments. -/
theorem claim_C2 :
    (∀ (w : World) (now : Nat) (payment : PaymentState),
      storeConsistent w.store = true →
      (payment.events = [] ∨ paymentConsistent payment = true) →
      storeConsistent (AgentStore.storePayment w now payment).store = true)
    ∧ (∀ (w : World) (now : Nat) (pid : String) (arg : StatusArg)
        (actor : Option String) (meta : Option MetaD),
      storeConsistent w.store = true →
      storeConsistent
        (AgentStore.updatePaymentStatus w now pid arg actor meta).2.store = true)
    ∧ (∀ (w : World) (now : Nat) (payment : PaymentState),
      payment.events = [] →
      getAssoc (AgentStore.storePayment w now payment).store.payments
          payment.payment_id =
        some { payment with
                 events := [{ status := payment.status, timestamp := now,
                              actor := some payment.buyer_agent_id,
                              metadata := none }] })
    ∧ (∀ (w : World) (now : Nat) (pid : String) (s : PaymentStatus)
        (actor : Option String) (meta : Option MetaD) (p : PaymentState),
      getAssoc w.store.payments pid = some p →
      s ∈ validTransitions p.status →
      getAssoc (AgentStore.updatePaymentStatus w now pid (.status s) actor
          meta).2.store.payments pid =
        some { p with
                 status := s, updated_at := now,
                 events := p.events ++ [{ status := s, timestamp := now,
                                          actor := actor, metadata := meta }] })
    ∧ (∀ (w : World) (now : Nat) (m : AgentMessage) (aid : String),
      (AgentStore.storeMessage w now m).store.payments = w.store.payments ∧
      (AgentStore.clearMessages w aid).store.payments = w.store.payments) := by
  refine ⟨storePayment_consistent, updatePaymentStatus_consistent, ?_, ?_, ?_⟩
  · intro w now payment he
    rw [storePayment_payments_nil w now payment he]
    exact getAssoc_setAssoc_self _ _ _
  · intro w now pid s actor meta p hp hs
    rw [updatePaymentStatus_payments_ok w now pid s actor meta p hp hs]
    exact getAssoc_setAssoc_self _ _ _
  · intro w now m aid
    exact ⟨rfl, rfl⟩

/-- A payment whose `status` (PAYMENT_SENT) disagrees with its non-empty
event history (which ends in INITIATED). -/
def pBad : PaymentState := { pFix with status := .payment_sent }

/-- Counterexample to C2 as frozen: `storePayment` does not preserve the
invariant for arbitrary inputs.  Storing `pBad` (status PAYMENT_SENT, but a
non-empty `events` list ending in an INITIATED event, so nothing is seeded)
into a consistent (empty) store leaves the store inconsistent. -/
theorem claim_C2_counterexample :
    storeConsistent wEmpty.store = true ∧
    storeConsistent (AgentStore.storePayment wEmpty 0 pBad).store = false := by
  exact ⟨by decide, by decide⟩

/-- `pFix` with its event history stripped, as handed to `storePayment`. -/
def pNoEvents : PaymentState := { pFix with events := [] }

/-- Witness for (amended) C2: storing a payment with empty `events` seeds the
single initial event carrying the payment's status and
`actor = buyer_agent_id`. -/
theorem claim_C2_witness :
    getAssoc (AgentStore.storePayment wEmpty 5 pNoEvents).store.payments
        pNoEvents.payment_id =
      some { pNoEvents with
               events := [{ status := pNoEvents.status, timestamp := 5,
                            actor := some pNoEvents.buyer_agent_id,
                            metadata := none }] } :=
  claim_C2.2.2.1 wEmpty 5 pNoEvents rfl

/-! ## Buyer-agent claims (C5, C7, C9) -/

/-- An environment whose provider rejects every payment. -/
def envFix : Env :=
  { makePayment := fun _ _ _ _ => .error "insufficient balance",
    getStatus := fun _ => .error "session offline",
    now := 100 }

/-- The demo buyer, fresh (empty processed set). -/
def bsFix : BuyerState :=
  { agentId := "buyer-agent-demo", agentName := "Demo Buyer Agent",
    webhookUrl := "/api/webhook/buyer", sessionKeyId := "sk-buyer",
    sessionWallet := "BuyerWallet1", isAutonomous := true,
    processedMessages := [] }

/-- The buyer after having processed message id `m-dup`. -/
def bsDup : BuyerState := { bsFix with processedMessages := ["m-dup"] }

/-- The demo seller's registry profile. -/
def sellerProfileFix : AgentProfile :=
  { agent_id := "seller-agent-demo", agent_name := "Demo GPT-4 Provider",
    webhook_url := "/api/webhook/seller", services := ["gpt4-tokens"],
    fixed_pricing := [("gpt4-tokens", 1)], session_key_id := "sk-seller",
    session_wallet := "SellerWallet1", is_autonomous := true, is_online := true }

/-- A quote for 5 tokens at 5 cents, sent by the seller. -/
def mQuoteFix : AgentMessage :=
  { type := .quote, from_agent_id := "seller-agent-demo",
    to_agent_id := "buyer-agent-demo", payload := .quote 5 5 5,
    signature := "mock_signature", timestamp := "0", message_id := "m-q1" }

/-- The same quote redelivered under the already-processed id `m-dup`. -/
def mDupMsg : AgentMessage := { mQuoteFix with message_id := "m-dup" }

/-- A malformed quote-typed message carrying a `null` payload. -/
def mNull : AgentMessage :=
  { mQuoteFix with payload := .null, message_id := "m-null" }

/-- A world in which only the seller is registered. -/
def wSeller : World :=
  { store := { agents := [("seller-agent-demo", sellerProfileFix)],
               messages := [], payments := [], logs := [] },
    nextId := 0, payAttempts := 0 }

/-- C5: when a message's id is already in the buyer's processed set,
`handleMessage` returns successfully having only appended the single
duplicate-ignored log entry: the buyer state is unchanged, no payment is
created or transitioned (payments untouched), and no message is sent
(queues untouched). -/
theorem claim_C5 (env : Env) (bs : BuyerState) (msg : AgentMessage) (w : World)
    (h : msg.message_id ∈ bs.processedMessages) :
    (BuyerAgent.handleMessage env bs msg w).1 = .ok ()
    ∧ (BuyerAgent.handleMessage env bs msg w).2.1 = bs
    ∧ (BuyerAgent.handleMessage env bs msg w).2.2.store.payments = w.store.payments
    ∧ (BuyerAgent.handleMessage env bs msg w).2.2.store.messages = w.store.messages
    ∧ (BuyerAgent.handleMessage env bs msg w).2.2.store.agents = w.store.agents
    ∧ (BuyerAgent.handleMessage env bs msg w).2.2.store.logs =
        w.store.logs ++
          [{ id := "uuid-" ++ toString w.nextId, timestamp := env.now,
             agent_id := bs.agentId, type := .message,
             message := "⚠️  Ignoring duplicate message: " ++ msg.message_id,
             data := some (.kv [("message_id", msg.message_id),
                                ("type", msgTypeToString msg.type)]) }] := by
  simp [BuyerAgent.handleMessage, h, addLogW]

/-- Witness for C5: redelivering id `m-dup` to `bsDup` leaves the buyer and
the payments map untouched. -/
theorem claim_C5_witness :
    (BuyerAgent.handleMessage envFix bsDup mDupMsg wEmpty).1 = .ok ()
    ∧ (BuyerAgent.handleMessage envFix bsDup mDupMsg wEmpty).2.1 = bsDup
    ∧ (BuyerAgent.handleMessage envFix bsDup mDupMsg wEmpty).2.2.store.payments = [] := by
  have h := claim_C5 envFix bsDup mDupMsg wEmpty (by decide)
  exact ⟨h.1, h.2.1, h.2.2.1.trans rfl⟩

/-- C7: when the type-switch dispatch of a fresh (non-duplicate) message
throws, `handleMessage` logs the failure, removes the message id from the
processed set (the set returns to exactly its old value, enabling a later
redelivery to be processed), and re-raises the same error to the caller. -/
theorem claim_C7 (env : Env) (bs : BuyerState) (msg : AgentMessage) (w : World)
    (e : JsErr) (w2 : World)
    (hdup : msg.message_id ∉ bs.processedMessages)
    (hdisp : buyerDispatch env
        { bs with processedMessages := msg.message_id :: bs.processedMessages }
        msg
        (addLogW w env.now bs.agentId .received
          ("Received " ++ msgTypeToString msg.type) (some (.msg msg))) =
      (.error e, w2)) :
    (BuyerAgent.handleMessage env bs msg w).1 = .error e
    ∧ (BuyerAgent.handleMessage env bs msg w).2.1.processedMessages =
        bs.processedMessages
    ∧ (BuyerAgent.handleMessage env bs msg w).2.2 =
        addLogW w2 env.now bs.agentId .message
          ("❌ Error handling " ++ msgTypeToString msg.type ++ ": " ++ e.message)
          (some (.kv [("message_id", msg.message_id), ("error", e.message)])) := by
  unfold BuyerAgent.handleMessage
  rw [if_neg (by simpa using hdup)]
  simp only [hdisp, List.erase_cons_head]
  exact ⟨trivial, trivial, trivial⟩

/-- Witness for C7: a quote message with a `null` payload makes the dispatch
throw a TypeError; the buyer ends with the id back out of the processed set
and the error re-raised. -/
theorem claim_C7_witness :
    (BuyerAgent.handleMessage envFix bsFix mNull wEmpty).1 =
      .error (.typeError "Cannot read properties of null (reading price)")
    ∧ (BuyerAgent.handleMessage envFix bsFix mNull wEmpty).2.1.processedMessages
        = [] := by
  have h := claim_C7 envFix bsFix mNull wEmpty
    (.typeError "Cannot read properties of null (reading price)")
    (addLogW wEmpty 100 "buyer-agent-demo" .received
      ("Received " ++ msgTypeToString .quote) (some (.msg mNull)))
    (by decide) rfl
  exact ⟨h.1, h.2.1.trans rfl⟩

/-- C9: when the external `makePayment` call for a quote fails, `handleQuote`
returns successfully (the error is swallowed), stores no payment, performs no
transition, sends no message, makes exactly one provider attempt (no retry),
and appends exactly three log entries, the last reporting the failure. -/
theorem claim_C9 (env : Env) (bs : BuyerState) (msg : AgentMessage) (w : World)
    (price qty d : Nat) (seller : AgentProfile) (emsg : String)
    (hpl : msg.payload = .quote price qty d)
    (hs : getAssoc w.store.agents msg.from_agent_id = some seller)
    (hfail : env.makePayment bs.sessionKeyId (some price) seller.session_wallet
        (toString qty ++ " GPT-4 tokens") = .error emsg) :
    (BuyerAgent.handleQuote env bs msg w).1 = .ok ()
    ∧ (BuyerAgent.handleQuote env bs msg w).2.store.payments = w.store.payments
    ∧ (BuyerAgent.handleQuote env bs msg w).2.store.messages = w.store.messages
    ∧ (BuyerAgent.handleQuote env bs msg w).2.payAttempts = w.payAttempts + 1
    ∧ (BuyerAgent.handleQuote env bs msg w).2.store.logs =
        w.store.logs ++
          [{ id := "uuid-" ++ toString w.nextId, timestamp := env.now,
             agent_id := bs.agentId, type := .message,
             message := "Quote received: $" ++ toString price ++ " for " ++
               toString qty ++ " tokens", data := none },
           { id := "uuid-" ++ toString (w.nextId + 1), timestamp := env.now,
             agent_id := bs.agentId, type := .message,
             message := "Executing payment via ZendFi...", data := none },
           { id := "uuid-" ++ toString (w.nextId + 1 + 1), timestamp := env.now,
             agent_id := bs.agentId, type := .message,
             message := " Payment failed: " ++ emsg,
             data := some (.kv [("error", emsg)]) }] := by
  simp [BuyerAgent.handleQuote, hpl, Payload.price?, Payload.quantity?,
    optNatToString, AgentStore.getAgent, addLogW, hs, hfail]

/-- Witness for C9: the failing provider `envFix` drops the quote `mQuoteFix`
in `wSeller` — no payment, no outbound message, one provider attempt. -/
theorem claim_C9_witness :
    (BuyerAgent.handleQuote envFix bsFix mQuoteFix wSeller).1 = .ok ()
    ∧ (BuyerAgent.handleQuote envFix bsFix mQuoteFix wSeller).2.store.payments = []
    ∧ (BuyerAgent.handleQuote envFix bsFix mQuoteFix wSeller).2.store.messages = []
    ∧ (BuyerAgent.handleQuote envFix bsFix mQuoteFix wSeller).2.payAttempts = 1 := by
  have h := claim_C9 envFix bsFix mQuoteFix wSeller 5 5 5 sellerProfileFix
    "insufficient balance" rfl (by decide) rfl
  exact ⟨h.1, h.2.1.trans rfl, h.2.2.1.trans rfl, h.2.2.2.1.trans rfl⟩

/-! ## Seller-agent claims (C4, C6) -/

deriving instance DecidableEq for Except

/-- The demo seller's instance state. -/
def ssFix : SellerState :=
  { agentId := "seller-agent-demo", agentName := "Demo GPT-4 Provider",
    webhookUrl := "/api/webhook/seller", sessionKeyId := "sk-seller",
    sessionWallet := "SellerWallet1", isAutonomous := true,
    fixedPricing := [("gpt4-tokens", 1)] }

/-- The demo buyer's registry profile. -/
def buyerProfileFix : AgentProfile :=
  { agent_id := "buyer-agent-demo", agent_name := "Demo Buyer Agent",
    webhook_url := "/api/webhook/buyer", services := [],
    fixed_pricing := [], session_key_id := "sk-buyer",
    session_wallet := "BuyerWallet1", is_autonomous := true, is_online := true }

/-- A payment sitting consistently in DELIVERY_PENDING. -/
def pDeliv : PaymentState :=
  { payment_id := "pay-1", status := .delivery_pending,
    buyer_agent_id := "buyer-agent-demo",
    seller_agent_id := "seller-agent-demo",
    amount := some 5, service_type := "gpt4-tokens",
    transaction_signature := some "sig1",
    events := [{ status := .payment_sent, timestamp := 10,
                 actor := some "buyer-agent-demo", metadata := none },
               { status := .delivery_pending, timestamp := 20,
                 actor := some "buyer-agent-demo", metadata := none }],
    refundable_until := 86400000, delivery_confirmed_at := none,
    created_at := 10, updated_at := 20 }

/-- The buyer's payment notification for `pDeliv`. -/
def mPayNotif : AgentMessage :=
  { type := .payment_notification, from_agent_id := "buyer-agent-demo",
    to_agent_id := "seller-agent-demo",
    payload := .paymentNotification "pay-1" (some 5) "gpt4-tokens" 5
      (some "sig1") "86400000",
    signature := "mock_signature", timestamp := "10", message_id := "m-p1" }

/-- A healthy environment: payments succeed, the session has balance. -/
def envOk : Env :=
  { makePayment := fun _ _ _ _ => .ok { paymentId := "pay-1", signature := "sig1" },
    getStatus := fun _ => .ok { remainingUsdc := 5 },
    now := 30 }

/-- A world in which `pDeliv` is stored and the duplicate notification
`mPayNotif` sits twice in the seller's queue for the same poll tick. -/
def wDup : World :=
  { store := { agents := [("buyer-agent-demo", buyerProfileFix),
                          ("seller-agent-demo", sellerProfileFix)],
               messages := [("seller-agent-demo", [mPayNotif, mPayNotif])],
               payments := [("pay-1", pDeliv)], logs := [] },
    nextId := 0, payAttempts := 0 }

/-- C4, evaluated at the failing input: two identical `payment_notification`
messages (same `message_id`) delivered to the seller in one poll tick.  The
seller applies NO idempotency gate — payment-notification handling runs for
both copies (the per-handling dispute-window log appears twice) — and not
one but zero `delivery_confirmation` messages reach the buyer (each handling
attempt aborts inside the stale `updatePaymentStatus` call). -/
theorem claim_C4 :
    ((AgentStore.getMessages (processSellerMessages envOk ssFix wDup).store
        "buyer-agent-demo").filter
        (fun m => m.type == MsgType.delivery_confirmation)).length = 0
    ∧ ((processSellerMessages envOk ssFix wDup).store.logs.filter
        (fun l => l.message == "Buyer has 24hr to dispute if not satisfied.")).length
        = 2 := by
  exact ⟨by decide, by decide⟩

/-- C6, evaluated at the failing input: a single well-formed
`payment_notification` for a stored DELIVERY_PENDING payment.  The seller's
`handlePayment` calls `updatePaymentStatus(payment_id, \x7b status:
'completed', delivery_confirmed_at \x7d)` — the pre-state-machine API — so
the store's `includes` check rejects the updates object, an
InvalidTransitionError propagates, the payment stays DELIVERY_PENDING, and
no `delivery_confirmation` is sent to the buyer. -/
theorem claim_C6 :
    (SellerAgent.handleMessage envOk ssFix mPayNotif wDup).1 =
      .error (.store (.invalidTransition .delivery_pending
        (.updatesObject [("status", "completed"),
                         ("delivery_confirmed_at", "30")])
        [.completed, .disputed, .refunded]))
    ∧ (getAssoc
        (SellerAgent.handleMessage envOk ssFix mPayNotif wDup).2.store.payments
        "pay-1").map PaymentState.status = some .delivery_pending
    ∧ ((AgentStore.getMessages
        (SellerAgent.handleMessage envOk ssFix mPayNotif wDup).2.store
        "buyer-agent-demo").filter
        (fun m => m.type == MsgType.delivery_confirmation)).length = 0 := by
  exact ⟨by decide, by decide, by decide⟩
